import Mathlib

/-!
Verification of the metrics-derivation and recommendation core of the
social-media user-analytics repository.

The embedding below translates the core computations of
`src/data_processing.py` (class `SocialMediaDataProcessor`) and
`src/ml_models/engagement_predictor.py` (class `ContentRecommendationEngine`)
into Lean.  Integer interaction counts are modelled as `ℤ` (pandas int64
columns; overflow is irrelevant at these magnitudes), and float arithmetic on
derived metrics is modelled exactly over `ℚ`.  The one float-specific
behaviour the code relies on - every comparison against NaN is false - is
modelled by `Option ℚ`, where `none` plays the role of NaN.  The per-run
draws of `np.random.uniform` are modelled as explicit streams of rational
draws passed as parameters, and the database row-update that may raise is
modelled as an explicit failure predicate on rows.
-/

namespace SocialMedia

/-- Model of `Series.replace(0, 1)` applied pointwise to the likes column in
`calculate_engagement_metrics`: the value `0` is replaced by `1`, every other
value (including negative ones) is kept. -/
def replaceZeroWithOne (x : ℤ) : ℤ :=
  if x = 0 then 1 else x

/-- The `engagement_rate` column of `calculate_engagement_metrics`
(data_processing.py lines 101-105):
`(likes_count + comments_count + shares_count) / likes_count.replace(0, 1) * 100`. -/
def engagement_rate (likes comments shares : ℤ) : ℚ :=
  ((likes : ℚ) + (comments : ℚ) + (shares : ℚ))
    / ((replaceZeroWithOne likes : ℤ) : ℚ) * 100

/-- The `virality_score` column of `calculate_engagement_metrics`
(data_processing.py lines 107-112):
`shares_count * 0.4 + comments_count * 0.3 + saves_count * 0.3`. -/
def virality_score (shares comments saves : ℤ) : ℚ :=
  (shares : ℚ) * 0.4 + (comments : ℚ) * 0.3 + (saves : ℚ) * 0.3

/-- One row of the joined interaction-count query feeding
`calculate_engagement_metrics`. -/
structure ContentRow where
  content_id : ℕ
  likes_count : ℤ
  comments_count : ℤ
  shares_count : ℤ
  saves_count : ℤ
deriving DecidableEq

/-- One row of the derived metrics table produced by
`calculate_engagement_metrics`. -/
structure ContentMetricsRow where
  content_id : ℕ
  engagement_rate : ℚ
  virality_score : ℚ
  reach_count : ℚ
  impressions_count : ℚ
deriving DecidableEq

/-- Per-row body of `calculate_engagement_metrics` (data_processing.py lines
99-118).  `reachMult` is the row's draw of `np.random.uniform(2, 5)` and
`impressionsMult` the row's draw of `np.random.uniform(1.2, 2.0)`:
`reach_count = likes_count * reachMult`,
`impressions_count = reach_count * impressionsMult`. -/
def calcContentMetrics (reachMult impressionsMult : ℚ) (r : ContentRow) :
    ContentMetricsRow :=
  { content_id := r.content_id
    engagement_rate := engagement_rate r.likes_count r.comments_count r.shares_count
    virality_score := virality_score r.shares_count r.comments_count r.saves_count
    reach_count := (r.likes_count : ℚ) * reachMult
    impressions_count := (r.likes_count : ℚ) * reachMult * impressionsMult }

/-- Model of `calculate_engagement_metrics` over a materialized batch of joined rows.
The two `np.random.uniform` vectors drawn by the run are passed explicitly as
streams `reachDraw` and `impressionsDraw`, indexed by row position. -/
def calculate_engagement_metrics (reachDraw impressionsDraw : ℕ → ℚ)
    (rows : List ContentRow) : List ContentMetricsRow :=
  rows.enum.map fun p => calcContentMetrics (reachDraw p.1) (impressionsDraw p.1) p.2

/-- A Python float restricted to the values the classifier can meet: `none`
models NaN (every ordered comparison involving it is false), `some q` models
an ordinary finite float, modelled exactly as a rational. -/
abbrev FloatVal := Option ℚ

/-- The `>=` comparison of a float against a threshold, with IEEE semantics
for NaN: `NaN >= q` is false. -/
def floatGe (x : FloatVal) (q : ℚ) : Bool :=
  match x with
  | none => false
  | some v => decide (q ≤ v)

/-- Model of `ContentRecommendationEngine._classify_performance`
(engagement_predictor.py lines 350-367), an if/elif/else cascade on
`engagement_rate >= 8.0 / 5.0 / 3.0`. -/
def classify_performance (engagementRate : FloatVal) : String :=
  if floatGe engagementRate 8.0 then "Excellent"
  else if floatGe engagementRate 5.0 then "Good"
  else if floatGe engagementRate 3.0 then "Average"
  else "Needs Improvement"

/-- Evaluation of the classifier on a non-NaN input, with the float literals
normalized to rationals. -/
theorem classify_some (q : ℚ) :
    classify_performance (some q)
      = if 8 ≤ q then "Excellent"
        else if 5 ≤ q then "Good"
        else if 3 ≤ q then "Average"
        else "Needs Improvement" := by
  unfold classify_performance floatGe
  norm_num

/-- Stable descending insertion of a `(key, count)` pair, modelling where
Python's stable `sorted(..., key=lambda x: x[1], reverse=True)` places an
element relative to the already-sorted later elements: an element inserted
from the left stops in front of the first entry whose count is not larger
than its own, so earlier entries stay in front of later entries with equal
counts. -/
def insertDesc {α : Type} (x : α × ℕ) : List (α × ℕ) → List (α × ℕ)
  | [] => [x]
  | y :: ys => if y.2 ≤ x.2 then x :: y :: ys else y :: insertDesc x ys

/-- Model of `sorted(mapping.items(), key=lambda x: x[1], reverse=True)` from
`recommend_content_strategy` (engagement_predictor.py lines 322-337),
modelled as the stable descending sort of the insertion-ordered item list. -/
def sortCountDesc {α : Type} : List (α × ℕ) → List (α × ℕ)
  | [] => []
  | x :: xs => insertDesc x (sortCountDesc xs)

/-- The `[:3]` slice appended to each `sorted(...)` call in
`recommend_content_strategy`. -/
def top3 {α : Type} (m : List (α × ℕ)) : List (α × ℕ) :=
  (sortCountDesc m).take 3

theorem insertDesc_perm {α : Type} (x : α × ℕ) (l : List (α × ℕ)) :
    (insertDesc x l).Perm (x :: l) := by
  induction l with
  | nil => simp [insertDesc]
  | cons y ys ih =>
    by_cases h : y.2 ≤ x.2
    · simp [insertDesc, h]
    · simp only [insertDesc, if_neg h]
      exact (List.Perm.cons y ih).trans (List.Perm.swap x y ys)

theorem sortCountDesc_perm {α : Type} (l : List (α × ℕ)) :
    (sortCountDesc l).Perm l := by
  induction l with
  | nil => simp [sortCountDesc]
  | cons x xs ih =>
    simp only [sortCountDesc]
    exact (insertDesc_perm x (sortCountDesc xs)).trans (List.Perm.cons x ih)

theorem sorted_insertDesc {α : Type} (x : α × ℕ) (l : List (α × ℕ))
    (hl : List.Sorted (fun a b : α × ℕ => b.2 ≤ a.2) l) :
    List.Sorted (fun a b : α × ℕ => b.2 ≤ a.2) (insertDesc x l) := by
  induction l with
  | nil => simp [insertDesc]
  | cons y ys ih =>
    rw [List.sorted_cons] at hl
    obtain ⟨hy, hys⟩ := hl
    by_cases h : y.2 ≤ x.2
    · simp only [insertDesc, if_pos h]
      rw [List.sorted_cons]
      refine ⟨?_, List.sorted_cons.mpr ⟨hy, hys⟩⟩
      intro z hz
      rcases List.mem_cons.mp hz with rfl | hz2
      · exact h
      · exact le_trans (hy z hz2) h
    · simp only [insertDesc, if_neg h]
      rw [List.sorted_cons]
      refine ⟨?_, ih hys⟩
      intro z hz
      have hz3 : z = x ∨ z ∈ ys := by
        have := (insertDesc_perm x ys).mem_iff.mp hz
        simpa using this
      rcases hz3 with rfl | hz4
      · exact le_of_lt (lt_of_not_le h)
      · exact hy z hz4

theorem sorted_sortCountDesc {α : Type} (l : List (α × ℕ)) :
    List.Sorted (fun a b : α × ℕ => b.2 ≤ a.2) (sortCountDesc l) := by
  induction l with
  | nil => simp [sortCountDesc]
  | cons x xs ih =>
    simp only [sortCountDesc]
    exact sorted_insertDesc x (sortCountDesc xs) ih

theorem filter_insertDesc {α : Type} (x : α × ℕ) (l : List (α × ℕ)) (c : ℕ) :
    (insertDesc x l).filter (fun p => decide (p.2 = c))
      = if x.2 = c then x :: l.filter (fun p => decide (p.2 = c))
        else l.filter (fun p => decide (p.2 = c)) := by
  induction l with
  | nil => by_cases hx : x.2 = c <;> simp [insertDesc, hx]
  | cons y ys ih =>
    by_cases h : y.2 ≤ x.2
    · simp only [insertDesc, if_pos h]
      by_cases hx : x.2 = c <;>
        by_cases hy : y.2 = c <;>
          simp [hx, hy, List.filter_cons]
    · simp only [insertDesc, if_neg h]
      by_cases hy : y.2 = c
      · have hx : ¬ x.2 = c := by
          intro hxc
          exact h (le_of_eq (hy.trans hxc.symm))
        simp [List.filter_cons, hy, hx, ih]
      · by_cases hx : x.2 = c <;> simp [List.filter_cons, hy, hx, ih]

theorem filter_sortCountDesc {α : Type} (l : List (α × ℕ)) (c : ℕ) :
    (sortCountDesc l).filter (fun p => decide (p.2 = c))
      = l.filter (fun p => decide (p.2 = c)) := by
  induction l with
  | nil => rfl
  | cons x xs ih =>
    simp only [sortCountDesc]
    rw [filter_insertDesc]
    by_cases hx : x.2 = c <;> simp [hx, List.filter_cons, ih]

/-- One row of the engagement-history DataFrame joined for a user in
`build_user_profiles`. -/
structure EngRow where
  user_id : ℕ
  content_type : String
  content_category : String
  engagement_rate : ℚ
  posting_hour : ℕ
  hashtags : String
deriving DecidableEq

/-- The keys of a column in order of first occurrence (the deterministic
insertion order of the hashtable behind `value_counts`). -/
def firstSeen {α : Type} [DecidableEq α] : List α → List α
  | [] => []
  | a :: as => a :: (firstSeen as).filter (fun b => decide (b ≠ a))

/-- pandas `Series.value_counts().to_dict()`: occurrence counts per observed
key, listed in descending count order (`value_counts` sorts by frequency),
ties kept in first-occurrence order. -/
def value_counts {α : Type} [DecidableEq α] (xs : List α) : List (α × ℕ) :=
  sortCountDesc ((firstSeen xs).map fun a => (a, xs.count a))

/-- The per-user profile dictionary built by `build_user_profiles`
(engagement_predictor.py lines 283-298). -/
structure UserProfile where
  preferred_content_types : List (String × ℕ)
  preferred_categories : List (String × ℕ)
  avg_engagement_rate : ℚ
  preferred_posting_times : List (ℕ × ℕ)
  hashtag_preferences : List (String × ℕ)
deriving DecidableEq

/-- The profile computed from a user's non-empty engagement history:
`value_counts().to_dict()` of each column and the mean engagement rate. -/
def mkUserProfile (hist : List EngRow) : UserProfile :=
  { preferred_content_types := value_counts (hist.map fun r => r.content_type)
    preferred_categories := value_counts (hist.map fun r => r.content_category)
    avg_engagement_rate := (hist.map fun r => r.engagement_rate).sum / (hist.length : ℚ)
    preferred_posting_times := value_counts (hist.map fun r => r.posting_hour)
    hashtag_preferences := value_counts (hist.map fun r => r.hashtags) }

/-- Lookup in the `self.user_profiles` dict, modelled as an insertion-ordered
association list. -/
def lookupProfile : List (ℕ × UserProfile) → ℕ → Option UserProfile
  | [], _ => none
  | (k, v) :: ps, uid => if k = uid then some v else lookupProfile ps uid

/-- Python dict assignment `self.user_profiles[user_id] = profile`: overwrite
in place if the key exists, else append. -/
def setProfile : List (ℕ × UserProfile) → ℕ → UserProfile → List (ℕ × UserProfile)
  | [], uid, p => [(uid, p)]
  | (k, v) :: ps, uid, p =>
    if k = uid then (k, p) :: ps else (k, v) :: setProfile ps uid p

/-- Model of `engagement_data[engagement_data['user_id'] == user_id]`: the rows of the
supplied history belonging to one user, in order. -/
def userHistory (engagement_data : List EngRow) (uid : ℕ) : List EngRow :=
  engagement_data.filter fun r => decide (r.user_id = uid)

/-- Model of `build_user_profiles` (engagement_predictor.py lines 274-303): iterate
over the user ids of `user_data`; for each, take its slice of
`engagement_data`; if the slice is non-empty, store the profile computed from
it in `self.user_profiles`; an empty slice is skipped, leaving the dict entry
for that user untouched. -/
def build_user_profiles :
    List ℕ → List EngRow → List (ℕ × UserProfile) → List (ℕ × UserProfile)
  | [], _, profiles => profiles
  | uid :: rest, engagement_data, profiles =>
    build_user_profiles rest engagement_data
      (if (userHistory engagement_data uid).isEmpty then profiles
       else setProfile profiles uid (mkUserProfile (userHistory engagement_data uid)))

/-- The recommendations dictionary assembled by `recommend_content_strategy`. -/
structure Recommendation where
  optimal_posting_times : List (ℕ × ℕ)
  recommended_content_types : List (String × ℕ)
  recommended_categories : List (String × ℕ)
  avg_engagement_rate : ℚ
  performance_level : String
deriving DecidableEq

/-- Result of `recommend_content_strategy`: either the structured
`{"error": ...}` dictionary or a recommendations dictionary. -/
inductive RecResult where
  | error (msg : String)
  | ok (r : Recommendation)
deriving DecidableEq

/-- Model of `recommend_content_strategy` (engagement_predictor.py lines 305-344):
an unknown user id yields `{"error": "User profile not found"}`; otherwise
each frequency mapping is stably sorted descending by count and cut to three
entries, and the profile's mean engagement rate is classified. -/
def recommend_content_strategy (profiles : List (ℕ × UserProfile))
    (user_id : ℕ) : RecResult :=
  match lookupProfile profiles user_id with
  | none => RecResult.error "User profile not found"
  | some p =>
    RecResult.ok
      { optimal_posting_times := top3 p.preferred_posting_times
        recommended_content_types := top3 p.preferred_content_types
        recommended_categories := top3 p.preferred_categories
        avg_engagement_rate := p.avg_engagement_rate
        performance_level := classify_performance (some p.avg_engagement_rate) }

theorem lookupProfile_setProfile_self (ps : List (ℕ × UserProfile)) (uid : ℕ)
    (p : UserProfile) :
    lookupProfile (setProfile ps uid p) uid = some p := by
  induction ps with
  | nil => simp [setProfile, lookupProfile]
  | cons hd tl ih =>
    obtain ⟨k, v⟩ := hd
    by_cases h : k = uid
    · simp [setProfile, h, lookupProfile]
    · simp [setProfile, h, lookupProfile, ih]

theorem lookupProfile_setProfile_ne (ps : List (ℕ × UserProfile))
    (uid uid2 : ℕ) (p : UserProfile) (h : uid ≠ uid2) :
    lookupProfile (setProfile ps uid p) uid2 = lookupProfile ps uid2 := by
  induction ps with
  | nil => simp [setProfile, lookupProfile, h]
  | cons hd tl ih =>
    obtain ⟨k, v⟩ := hd
    by_cases hk : k = uid
    · subst hk
      simp [setProfile, lookupProfile, h]
    · simp [setProfile, hk, lookupProfile, ih]

/-- Complete characterization of a profile lookup after a profile-building
pass: a user in the pass with a non-empty history slice gets the profile of
that slice; every other user keeps whatever entry the dict had before (in
particular a user in the pass whose new slice is empty is skipped, not
replaced). -/
theorem lookupProfile_build (user_ids : List ℕ) (engagement_data : List EngRow)
    (profiles : List (ℕ × UserProfile)) (uid : ℕ) :
    lookupProfile (build_user_profiles user_ids engagement_data profiles) uid
      = if uid ∈ user_ids ∧ userHistory engagement_data uid ≠ []
        then some (mkUserProfile (userHistory engagement_data uid))
        else lookupProfile profiles uid := by
  induction user_ids generalizing profiles with
  | nil => simp [build_user_profiles]
  | cons u us ih =>
    simp only [build_user_profiles]
    by_cases h3 : (userHistory engagement_data u).isEmpty
    · rw [if_pos h3, ih]
      have h3e : userHistory engagement_data u = [] := List.isEmpty_iff.mp h3
      have hiff : (uid ∈ u :: us ∧ userHistory engagement_data uid ≠ [])
          ↔ (uid ∈ us ∧ userHistory engagement_data uid ≠ []) := by
        constructor
        · intro hcon
          rcases List.mem_cons.mp hcon.1 with h4 | h4
          · subst h4
            exact absurd h3e hcon.2
          · exact ⟨h4, hcon.2⟩
        · intro hcon
          exact ⟨List.mem_cons_of_mem u hcon.1, hcon.2⟩
      exact if_congr hiff.symm rfl rfl
    · rw [if_neg h3, ih]
      by_cases h1 : uid ∈ us ∧ userHistory engagement_data uid ≠ []
      · rw [if_pos h1, if_pos ⟨List.mem_cons_of_mem u h1.1, h1.2⟩]
      · rw [if_neg h1]
        by_cases h2 : uid = u
        · subst h2
          have hne : userHistory engagement_data uid ≠ [] := by
            intro he
            exact h3 (List.isEmpty_iff.mpr he)
          rw [if_pos ⟨List.mem_cons_self uid us, hne⟩, lookupProfile_setProfile_self]
        · have hmem : ¬ (uid ∈ u :: us ∧ userHistory engagement_data uid ≠ []) := by
            intro hcon
            rcases List.mem_cons.mp hcon.1 with h4 | h4
            · exact h2 h4
            · exact h1 ⟨h4, hcon.2⟩
          rw [if_neg hmem,
            lookupProfile_setProfile_ne profiles u uid
              (mkUserProfile (userHistory engagement_data u)) (fun h4 => h2 h4.symm)]

/-- Claim C1: for every InteractionCounts record with non-negative likes,
comments and shares, `engagement_rate` equals
`(likes + comments + shares) / max(likes, 1) * 100`; when `likes = 0` the
computation is defined (denominator clamped to 1) and returns
`(comments + shares) * 100`; for likes=10, comments=2, shares=1 the result is
exactly 130. -/
theorem claim_C1 (likes comments shares : ℤ)
    (hl : 0 ≤ likes) (hc : 0 ≤ comments) (hs : 0 ≤ shares) :
    engagement_rate likes comments shares
      = ((likes + comments + shares : ℤ) : ℚ) / ((max likes 1 : ℤ) : ℚ) * 100
    ∧ engagement_rate 0 comments shares = ((comments : ℚ) + (shares : ℚ)) * 100
    ∧ engagement_rate 10 2 1 = 130 := by
  refine ⟨?_, ?_, ?_⟩
  · have hrep : replaceZeroWithOne likes = max likes 1 := by
      unfold replaceZeroWithOne
      rcases eq_or_ne likes 0 with h | h
      · subst h
        simp
      · have h1 : 1 ≤ likes := by omega
        rw [if_neg h, max_eq_left h1]
    unfold engagement_rate
    rw [hrep]
    push_cast
    ring
  · unfold engagement_rate replaceZeroWithOne
    push_cast
    norm_num
  · norm_num [engagement_rate, replaceZeroWithOne]

/-- Witness for claim C1 at likes=0, comments=7, shares=4 (and the 130.0
scenario). -/
theorem claim_C1_witness :
    engagement_rate 0 7 4
      = ((0 + 7 + 4 : ℤ) : ℚ) / ((max 0 1 : ℤ) : ℚ) * 100
    ∧ engagement_rate 0 7 4 = (((7 : ℤ) : ℚ) + ((4 : ℤ) : ℚ)) * 100
    ∧ engagement_rate 10 2 1 = 130 :=
  claim_C1 0 7 4 (by norm_num) (by norm_num) (by norm_num)

/-- Claim C2: the performance-level classification partitions the (non-NaN)
float line into four non-overlapping bands with boundary values mapping to
the higher band: "Excellent" iff rate ≥ 8, "Good" iff 5 ≤ rate < 8,
"Average" iff 3 ≤ rate < 5, "Needs Improvement" iff rate < 3; in particular
8.0 classifies as "Excellent" and 4.999 as "Average". -/
theorem claim_C2 (rate : ℚ) :
    (classify_performance (some rate) = "Excellent" ↔ 8 ≤ rate)
    ∧ (classify_performance (some rate) = "Good" ↔ 5 ≤ rate ∧ rate < 8)
    ∧ (classify_performance (some rate) = "Average" ↔ 3 ≤ rate ∧ rate < 5)
    ∧ (classify_performance (some rate) = "Needs Improvement" ↔ rate < 3)
    ∧ classify_performance (some 8) = "Excellent"
    ∧ classify_performance (some (4999 / 1000)) = "Average" := by
  refine ⟨?_, ?_, ?_, ?_, by rw [classify_some]; norm_num, by rw [classify_some]; norm_num⟩
  · rw [classify_some]
    split_ifs with h1 h2 h3
    · exact iff_of_true rfl h1
    · exact iff_of_false (by decide) h1
    · exact iff_of_false (by decide) h1
    · exact iff_of_false (by decide) h1
  · rw [classify_some]
    split_ifs with h1 h2 h3
    · refine iff_of_false (by decide) ?_
      rintro ⟨h5, hlt⟩
      linarith
    · exact iff_of_true rfl ⟨h2, lt_of_not_le h1⟩
    · refine iff_of_false (by decide) ?_
      rintro ⟨h5, hlt⟩
      exact h2 h5
    · refine iff_of_false (by decide) ?_
      rintro ⟨h5, hlt⟩
      exact h2 h5
  · rw [classify_some]
    split_ifs with h1 h2 h3
    · refine iff_of_false (by decide) ?_
      rintro ⟨h5, hlt⟩
      linarith
    · refine iff_of_false (by decide) ?_
      rintro ⟨h5, hlt⟩
      linarith
    · exact iff_of_true rfl ⟨h3, lt_of_not_le h2⟩
    · refine iff_of_false (by decide) ?_
      rintro ⟨h5, hlt⟩
      exact h3 h5
  · rw [classify_some]
    split_ifs with h1 h2 h3
    · refine iff_of_false (by decide) ?_
      intro hlt
      linarith
    · refine iff_of_false (by decide) ?_
      intro hlt
      linarith
    · refine iff_of_false (by decide) ?_
      intro hlt
      linarith
    · exact iff_of_true rfl (lt_of_not_le h3)

/-- Claim C3: the top-3 selection used by the recommendation engine is the
three first entries of a stable descending sort of the frequency mapping:
the sorted list is a permutation of the mapping, it is sorted descending by
count, entries with equal counts keep the mapping's insertion order, and for
posting hours {9:5, 14:5, 20:1} in first-seen order [9, 14, 20] the top-3
keys are [9, 14, 20]. -/
theorem claim_C3 (m : List (ℕ × ℕ)) :
    (sortCountDesc m).Perm m
    ∧ List.Sorted (fun a b : ℕ × ℕ => b.2 ≤ a.2) (sortCountDesc m)
    ∧ (∀ c : ℕ, (sortCountDesc m).filter (fun p => decide (p.2 = c))
        = m.filter (fun p => decide (p.2 = c)))
    ∧ (top3 [(9, 5), (14, 5), (20, 1)]).map Prod.fst = [9, 14, 20] :=
  ⟨sortCountDesc_perm m, sorted_sortCountDesc m,
    fun c => filter_sortCountDesc m c, by decide⟩

/-- Claim C4: `virality_score` equals `0.4*shares + 0.3*comments + 0.3*saves`,
it is linear under scaling all three counts by a common factor, and
shares=1, comments=2, saves=3 yields exactly 1.9. -/
theorem claim_C4 (shares comments saves : ℤ) :
    virality_score shares comments saves
      = 0.4 * (shares : ℚ) + 0.3 * (comments : ℚ) + 0.3 * (saves : ℚ)
    ∧ (∀ k : ℤ, virality_score (k * shares) (k * comments) (k * saves)
        = (k : ℚ) * virality_score shares comments saves)
    ∧ virality_score 1 2 3 = 1.9 := by
  refine ⟨?_, ?_, ?_⟩
  · unfold virality_score
    ring
  · intro k
    unfold virality_score
    push_cast
    ring
  · norm_num [virality_score]

/-- Claim C5: when no profile exists for the requested user id - because the
id is unknown, or because the user's supplied history was empty so the
profile-building pass skipped it - requesting a recommendation returns the
structured `{"error": "User profile not found"}` result, which is distinct
from every successful recommendation value. -/
theorem claim_C5 (user_ids : List ℕ) (engagement_data : List EngRow)
    (profiles : List (ℕ × UserProfile)) (uid : ℕ)
    (hnone : lookupProfile profiles uid = none)
    (hempty : userHistory engagement_data uid = []) :
    recommend_content_strategy
        (build_user_profiles user_ids engagement_data profiles) uid
      = RecResult.error "User profile not found"
    ∧ ∀ r : Recommendation,
        RecResult.error "User profile not found" ≠ RecResult.ok r := by
  constructor
  · have h := lookupProfile_build user_ids engagement_data profiles uid
    rw [if_neg (fun hcon => hcon.2 hempty), hnone] at h
    unfold recommend_content_strategy
    rw [h]
  · intro r hcon
    exact RecResult.noConfusion hcon

/-- Witness for claim C5: an empty engagement history and an empty profile
dict yield the structured not-found result for user 1. -/
theorem claim_C5_witness :
    recommend_content_strategy (build_user_profiles [1] [] []) 1
      = RecResult.error "User profile not found"
    ∧ ∀ r : Recommendation,
        RecResult.error "User profile not found" ≠ RecResult.ok r :=
  claim_C5 [1] [] [] 1 rfl rfl

/-- A concrete stored profile for user 1, used to exhibit the behaviour of a
rebuild pass whose new history slice is empty. -/
def profileA : UserProfile :=
  { preferred_content_types := [("photo", 3)]
    preferred_categories := [("food", 3)]
    avg_engagement_rate := 1
    preferred_posting_times := [(9, 3)]
    hashtag_preferences := [("#a", 3)] }

/-- A second stored profile for user 1, differing from `profileA` only in the
mean engagement rate. -/
def profileB : UserProfile :=
  { profileA with avg_engagement_rate := 2 }

/-- Claim C6 counterexample: user 1 is in the pass and its supplied history
is empty, yet the pass leaves whichever profile was previously stored
(`profileA` or `profileB`) in place - the resulting profile depends on the
prior state, so it is not replaced by one derived solely from the supplied
history. -/
theorem claim_C6_counterexample :
    build_user_profiles [1] [] [(1, profileA)] = [(1, profileA)]
    ∧ build_user_profiles [1] [] [(1, profileB)] = [(1, profileB)]
    ∧ profileA ≠ profileB := by
  refine ⟨rfl, rfl, by decide⟩

/-- Claim C6 as amended: a user id in the pass whose supplied history slice
is non-empty has its profile replaced by the one derived solely from that
slice; a user id whose slice is empty is skipped, keeping its previous entry
(if any); user ids not in the pass keep their previous entries. -/
theorem claim_C6_amended (user_ids : List ℕ) (engagement_data : List EngRow)
    (profiles : List (ℕ × UserProfile)) (uid : ℕ) :
    lookupProfile (build_user_profiles user_ids engagement_data profiles) uid
      = if uid ∈ user_ids ∧ userHistory engagement_data uid ≠ []
        then some (mkUserProfile (userHistory engagement_data uid))
        else lookupProfile profiles uid :=
  lookupProfile_build user_ids engagement_data profiles uid

/-- Claim C7 counterexample: a row with a negative like count is not
rejected; `calculate_engagement_metrics` silently computes a metrics record
from it, with the negative count as denominator: likes=-1, comments=0,
shares=2 yields engagement_rate = -100. -/
theorem claim_C7_counterexample :
    (calcContentMetrics 2 (3 / 2)
        { content_id := 0, likes_count := -1, comments_count := 0,
          shares_count := 2, saves_count := 0 }).engagement_rate = -100 := by
  norm_num [calcContentMetrics, engagement_rate, replaceZeroWithOne]

/-- Claim C7 as amended: the core performs no boundary validation of counts;
for a negative like count the `replace(0, 1)` clamp does not apply, and the
engagement rate is silently computed with the negative count as denominator
instead of raising an InvalidInputError-style rejection. -/
theorem claim_C7_amended (likes comments shares : ℤ) (h : likes < 0) :
    engagement_rate likes comments shares
      = ((likes + comments + shares : ℤ) : ℚ) / ((likes : ℤ) : ℚ) * 100 := by
  unfold engagement_rate replaceZeroWithOne
  rw [if_neg (by omega : ¬ likes = 0)]
  push_cast
  ring

/-- Witness for claim C7 as amended, at likes=-1, comments=0, shares=2. -/
theorem claim_C7_witness :
    engagement_rate (-1) 0 2
      = (((-1) + 0 + 2 : ℤ) : ℚ) / (((-1 : ℤ) : ℤ) : ℚ) * 100 :=
  claim_C7_amended (-1) 0 2 (by norm_num)

/-- A one-row input batch with a single like, used to compare two runs of the
metrics computation. -/
def contentRow1 : ContentRow :=
  { content_id := 0, likes_count := 1, comments_count := 0,
    shares_count := 0, saves_count := 0 }

/-- Claim C9 counterexample: two runs of `calculate_engagement_metrics` on
the same input batch, whose `np.random.uniform(2, 5)` draw happens to be 2 in
one run and 3 in the other, produce different ContentMetrics records (the
reach counts differ). -/
theorem claim_C9_counterexample :
    calculate_engagement_metrics (fun _ => 2) (fun _ => 3 / 2) [contentRow1]
      ≠ calculate_engagement_metrics (fun _ => 3) (fun _ => 3 / 2) [contentRow1] := by
  intro h
  have h1 := congrArg (fun l => l.map fun m => m.reach_count) h
  simp only [calculate_engagement_metrics, calcContentMetrics, contentRow1,
    List.enum, List.enumFrom, List.map_cons, List.map_nil, List.cons.injEq] at h1
  norm_num at h1

/-- Claim C9 as amended: the `engagement_rate` and `virality_score` columns
are deterministic functions of the input batch - they are unchanged under any
choice of the random draw streams - while `reach_count` and
`impressions_count` are derived from the per-run draws and therefore vary
across runs. -/
theorem claim_C9_amended (d1 d2 e1 e2 : ℕ → ℚ) (rows : List ContentRow) :
    (calculate_engagement_metrics d1 d2 rows).map
        (fun m => (m.content_id, m.engagement_rate, m.virality_score))
      = (calculate_engagement_metrics e1 e2 rows).map
        (fun m => (m.content_id, m.engagement_rate, m.virality_score)) := by
  unfold calculate_engagement_metrics
  simp [List.map_map, calcContentMetrics, Function.comp]

/-- Claim C10: the performance classifier is total - on NaN (modelled as
`none`, for which every threshold comparison is false) it falls through to
"Needs Improvement", and on every input it returns one of the four band
labels, never an error or a distinct no-data outcome. -/
theorem claim_C10 :
    classify_performance none = "Needs Improvement"
    ∧ ∀ x : FloatVal,
        classify_performance x = "Excellent"
        ∨ classify_performance x = "Good"
        ∨ classify_performance x = "Average"
        ∨ classify_performance x = "Needs Improvement" := by
  refine ⟨rfl, ?_⟩
  intro x
  unfold classify_performance
  split_ifs <;> simp

end SocialMedia
